import Mathlib

/-!
Shallow embedding of the Credit-Management backend (`src/backend/server.py`).

The backend is a FastAPI service over two MongoDB collections, `customers`
and `credit_entries`.  We model each collection as a `List` of records kept
in insertion order (MongoDB's natural order for these workloads), and each
handler as a pure function from the database state to an `Except` result
together with the new state.  Monetary amounts (Python floats holding
decimal sums) are modelled as rationals; timestamps as naturals; generated
uuids and `utcnow` timestamps are passed to the handlers as explicit
parameters.  The fetch cap `to_list(1000)` is modelled by `List.take 1000`.
-/

namespace CreditMgmt

/-- The `Customer` pydantic model (server.py lines 31-39). -/
structure Customer where
  id : String
  name : String
  phone : Option String
  address : Option String
  created_at : Nat
  total_credit : Rat
  total_paid : Rat
  outstanding_balance : Rat
deriving DecidableEq, Repr

/-- The `CustomerCreate` request model (server.py lines 41-44). -/
structure CustomerCreate where
  name : String
  phone : Option String
  address : Option String
deriving DecidableEq, Repr

/-- The `CreditEntry` pydantic model (server.py lines 46-55). -/
structure CreditEntry where
  id : String
  customer_id : String
  amount : Rat
  description : Option String
  date : Nat
  image_data : Option String
  is_paid : Bool
  paid_amount : Rat
  created_at : Nat
deriving DecidableEq, Repr

/-- The `CreditEntryCreate` request model (server.py lines 57-62). -/
structure CreditEntryCreate where
  customer_id : String
  amount : Rat
  description : Option String
  date : Nat
  image_data : Option String
deriving DecidableEq, Repr

/-- The `CreditEntryUpdate` request model (server.py lines 64-69): every
field optional, `none` meaning "not supplied". -/
structure CreditEntryUpdate where
  amount : Option Rat
  description : Option String
  date : Option Nat
  is_paid : Option Bool
  paid_amount : Option Rat
deriving DecidableEq, Repr

/-- The `PaymentUpdate` request model (server.py lines 71-73). -/
structure PaymentUpdate where
  is_paid : Bool
  paid_amount : Rat
deriving DecidableEq, Repr

/-- Errors surfaced by the handlers: `notFound` models
`HTTPException(status_code=404, detail=...)`, `validationError` models the
422 raised by FastAPI/pydantic request validation. -/
inductive Err where
  | notFound (detail : String)
  | validationError
deriving DecidableEq, Repr

/-- The database state: the two MongoDB collections, in insertion order. -/
structure DB where
  customers : List Customer
  credit_entries : List CreditEntry
deriving DecidableEq, Repr

/-- Model of MongoDB `update_one`: apply `f` to the first element matching
`p`, leave everything else unchanged (no-op when nothing matches). -/
def updateFirst (p : α → Bool) (f : α → α) : List α → List α
  | [] => []
  | x :: xs => if p x then f x :: xs else x :: updateFirst p f xs

/-- `update_customer_totals` (server.py lines 77-95): fetch the customer's
entries (capped at 1000), sum `amount` and `paid_amount`, and `$set` the
three totals on the customer record. -/
def update_customer_totals (customer_id : String) (db : DB) : DB :=
  let entries := (db.credit_entries.filter (fun e => e.customer_id == customer_id)).take 1000
  let total_credit := (entries.map (fun e => e.amount)).sum
  let total_paid := (entries.map (fun e => e.paid_amount)).sum
  let outstanding_balance := total_credit - total_paid
  { db with
    customers := updateFirst (fun c => c.id == customer_id)
      (fun c => { c with
        total_credit := total_credit
        total_paid := total_paid
        outstanding_balance := outstanding_balance }) db.customers }

/-- The raw body of `POST /api/customers` before pydantic validation:
`name` may be absent. -/
structure CustomerCreateBody where
  name : Option String
  phone : Option String
  address : Option String
deriving DecidableEq, Repr

/-- Pydantic validation of `CustomerCreate` (server.py lines 41-44):
`name: str` is a required field, so a missing `name` is rejected with a
422 validation error, while any present string — including the empty
string — is accepted (plain `str` imposes no length constraint). -/
def validateCustomerCreate (b : CustomerCreateBody) : Except Err CustomerCreate :=
  match b.name with
  | none => .error .validationError
  | some n => .ok { name := n, phone := b.phone, address := b.address }

/-- `create_customer` (server.py lines 99-104): build a `Customer` with a
generated id, current timestamp and defaulted (zero) totals, insert it. -/
def create_customer (newId : String) (now : Nat) (customer : CustomerCreate) (db : DB) :
    Customer × DB :=
  let customer_obj : Customer :=
    { id := newId
      name := customer.name
      phone := customer.phone
      address := customer.address
      created_at := now
      total_credit := 0
      total_paid := 0
      outstanding_balance := 0 }
  (customer_obj, { db with customers := db.customers ++ [customer_obj] })

/-- `get_customer` (server.py lines 111-116): `find_one` by id, 404 when
absent. -/
def get_customer (customer_id : String) (db : DB) : Except Err Customer :=
  match db.customers.find? (fun c => c.id == customer_id) with
  | none => .error (.notFound "Customer not found")
  | some c => .ok c

/-- `update_customer` (server.py lines 118-130): 404 when the customer is
absent, otherwise `$set` the three mutable fields (name, phone, address)
on the record and return the re-fetched customer. -/
def update_customer (customer_id : String) (customer_update : CustomerCreate) (db : DB) :
    Except Err (Customer × DB) :=
  match db.customers.find? (fun c => c.id == customer_id) with
  | none => .error (.notFound "Customer not found")
  | some _ =>
    let db1 : DB :=
      { db with
        customers := updateFirst (fun c => c.id == customer_id)
          (fun c => { c with
            name := customer_update.name
            phone := customer_update.phone
            address := customer_update.address }) db.customers }
    match db1.customers.find? (fun c => c.id == customer_id) with
    | none => .error (.notFound "Customer not found")
    | some updated => .ok (updated, db1)

/-- `delete_customer` (server.py lines 132-141): `delete_one` the customer
(404 when nothing was deleted), then `delete_many` all credit entries with
that `customer_id`. -/
def delete_customer (customer_id : String) (db : DB) : Except Err DB :=
  if db.customers.any (fun c => c.id == customer_id) then
    .ok
      { customers := db.customers.eraseP (fun c => c.id == customer_id)
        credit_entries := db.credit_entries.filter (fun e => !(e.customer_id == customer_id)) }
  else
    .error (.notFound "Customer not found")

/-- `create_credit_entry` (server.py lines 145-159): verify the customer
exists (404 otherwise), insert the entry with defaulted `is_paid = false`,
`paid_amount = 0`, generated id and `created_at`, then recompute the
customer's totals before returning. -/
def create_credit_entry (newId : String) (now : Nat) (entry : CreditEntryCreate) (db : DB) :
    Except Err (CreditEntry × DB) :=
  match db.customers.find? (fun c => c.id == entry.customer_id) with
  | none => .error (.notFound "Customer not found")
  | some _ =>
    let entry_obj : CreditEntry :=
      { id := newId
        customer_id := entry.customer_id
        amount := entry.amount
        description := entry.description
        date := entry.date
        image_data := entry.image_data
        is_paid := false
        paid_amount := 0
        created_at := now }
    let db1 : DB := { db with credit_entries := db.credit_entries ++ [entry_obj] }
    .ok (entry_obj, update_customer_totals entry.customer_id db1)

/-- `get_credit_entries` (server.py lines 161-164): all entries of one
customer, sorted by `date` descending, capped at 1000.  No check that the
customer exists. -/
def get_credit_entries (customer_id : String) (db : DB) : List CreditEntry :=
  ((db.credit_entries.filter (fun e => e.customer_id == customer_id)).mergeSort
    (fun a b => Nat.ble b.date a.date)).take 1000

/-- The sparse merge done by `update_credit_entry`: the `$set` document is
`{k: v for k, v in entry_update.dict().items() if v is not None}`, so only
the supplied (non-`None`) fields overwrite the stored ones. -/
def applyEntryUpdate (u : CreditEntryUpdate) (e : CreditEntry) : CreditEntry :=
  { e with
    amount := match u.amount with | none => e.amount | some a => a
    description := match u.description with | none => e.description | some d => some d
    date := match u.date with | none => e.date | some d => d
    is_paid := match u.is_paid with | none => e.is_paid | some b => b
    paid_amount := match u.paid_amount with | none => e.paid_amount | some a => a }

/-- `update_credit_entry` (server.py lines 166-184): 404 when the entry is
absent; otherwise `$set` only the supplied fields, re-fetch the entry,
recompute totals for the (pre-update) entry's customer, and return the
re-fetched entry. -/
def update_credit_entry (entry_id : String) (entry_update : CreditEntryUpdate) (db : DB) :
    Except Err (CreditEntry × DB) :=
  match db.credit_entries.find? (fun e => e.id == entry_id) with
  | none => .error (.notFound "Credit entry not found")
  | some entry =>
    let db1 : DB :=
      { db with
        credit_entries :=
          updateFirst (fun e => e.id == entry_id) (applyEntryUpdate entry_update)
            db.credit_entries }
    match db1.credit_entries.find? (fun e => e.id == entry_id) with
    | none => .error (.notFound "Credit entry not found")
    | some updated_entry => .ok (updated_entry, update_customer_totals entry.customer_id db1)

/-- `update_payment_status` (server.py lines 186-205): 404 when the entry
is absent; otherwise unconditionally `$set` `is_paid` and `paid_amount`,
re-fetch, recompute the customer's totals, and return the entry. -/
def update_payment_status (entry_id : String) (payment : PaymentUpdate) (db : DB) :
    Except Err (CreditEntry × DB) :=
  match db.credit_entries.find? (fun e => e.id == entry_id) with
  | none => .error (.notFound "Credit entry not found")
  | some entry =>
    let db1 : DB :=
      { db with
        credit_entries :=
          updateFirst (fun e => e.id == entry_id)
            (fun e => { e with is_paid := payment.is_paid, paid_amount := payment.paid_amount })
            db.credit_entries }
    match db1.credit_entries.find? (fun e => e.id == entry_id) with
    | none => .error (.notFound "Credit entry not found")
    | some updated_entry => .ok (updated_entry, update_customer_totals entry.customer_id db1)

/-- `delete_credit_entry` (server.py lines 207-222): 404 when the entry is
absent; otherwise remember its `customer_id`, `delete_one` it, and
recompute that customer's totals. -/
def delete_credit_entry (entry_id : String) (db : DB) : Except Err DB :=
  match db.credit_entries.find? (fun e => e.id == entry_id) with
  | none => .error (.notFound "Credit entry not found")
  | some entry =>
    let customer_id := entry.customer_id
    let db1 : DB := { db with credit_entries := db.credit_entries.eraseP (fun e => e.id == entry_id) }
    .ok (update_customer_totals customer_id db1)

/-- The dashboard stats payload (server.py lines 237-243). -/
structure Stats where
  total_customers : Nat
  total_credit_entries : Nat
  total_outstanding : Rat
  total_credit : Rat
  total_paid : Rat
deriving DecidableEq, Repr

/-- `get_dashboard_stats` (server.py lines 226-243): exact
`count_documents` for both collections, then sums of the cached totals
over the customers fetched by `find().to_list(1000)` — i.e. over at most
the first 1000 customer documents. -/
def get_dashboard_stats (db : DB) : Stats :=
  let fetched := db.customers.take 1000
  { total_customers := db.customers.length
    total_credit_entries := db.credit_entries.length
    total_outstanding := (fetched.map (fun c => c.outstanding_balance)).sum
    total_credit := (fetched.map (fun c => c.total_credit)).sum
    total_paid := (fetched.map (fun c => c.total_paid)).sum }

/-- The credit-entry mutations of the API (the four handlers that write the
`credit_entries` collection and then recompute totals). -/
inductive EntryMutation where
  | create (newId : String) (now : Nat) (req : CreditEntryCreate)
  | update (entry_id : String) (u : CreditEntryUpdate)
  | payment (entry_id : String) (p : PaymentUpdate)
  | delete (entry_id : String)
deriving DecidableEq, Repr

/-- Run one credit-entry mutation, keeping only the resulting state. -/
def runEntryMutation : EntryMutation → DB → Except Err DB
  | .create newId now req, db => (create_credit_entry newId now req db).map (fun r => r.2)
  | .update entry_id u, db => (update_credit_entry entry_id u db).map (fun r => r.2)
  | .payment entry_id p, db => (update_payment_status entry_id p db).map (fun r => r.2)
  | .delete entry_id, db => delete_credit_entry entry_id db

/-- The customer whose entry a mutation touches: for a create, the target
`customer_id` (when that customer exists); for the three by-id mutations,
the owning `customer_id` of the entry found in the store. -/
def touchedCustomerId : EntryMutation → DB → Option String
  | .create _ _ req, db =>
    (db.customers.find? (fun c => c.id == req.customer_id)).map (fun _ => req.customer_id)
  | .update entry_id _, db =>
    (db.credit_entries.find? (fun e => e.id == entry_id)).map (fun e => e.customer_id)
  | .payment entry_id _, db =>
    (db.credit_entries.find? (fun e => e.id == entry_id)).map (fun e => e.customer_id)
  | .delete entry_id, db =>
    (db.credit_entries.find? (fun e => e.id == entry_id)).map (fun e => e.customer_id)

/-- Every mutating operation of the API. -/
inductive Op where
  | createCustomer (newId : String) (now : Nat) (c : CustomerCreate)
  | updateCustomer (customer_id : String) (u : CustomerCreate)
  | deleteCustomer (customer_id : String)
  | entry (m : EntryMutation)
deriving DecidableEq, Repr

/-- Run one mutating operation, keeping only the resulting state. -/
def runOp : Op → DB → Except Err DB
  | .createCustomer newId now c, db => .ok (create_customer newId now c db).2
  | .updateCustomer customer_id u, db => (update_customer customer_id u db).map (fun r => r.2)
  | .deleteCustomer customer_id, db => delete_customer customer_id db
  | .entry m, db => runEntryMutation m db

/-- The store an operation leaves behind: the new state on success, the
unchanged state when the handler raised (every handler checks existence
before writing, so a 404 leaves the store untouched). -/
def applyOp (op : Op) (db : DB) : DB :=
  match runOp op db with
  | .ok db' => db'
  | .error _ => db

/-- The stored credit entries owned by one customer. -/
def entriesOf (customer_id : String) (db : DB) : List CreditEntry :=
  db.credit_entries.filter (fun e => e.customer_id == customer_id)

/-! ### Helper lemmas about `updateFirst` -/

theorem find?_updateFirst (p : α → Bool) (f : α → α) (l : List α)
    (hf : ∀ a, p a = true → p (f a) = true) :
    (updateFirst p f l).find? p = (l.find? p).map f := by
  induction l with
  | nil => rfl
  | cons x xs ih =>
    by_cases hx : p x = true
    · rw [updateFirst, if_pos hx, List.find?_cons_of_pos _ (hf x hx),
        List.find?_cons_of_pos _ hx]
      rfl
    · rw [Bool.not_eq_true] at hx
      rw [updateFirst, if_neg (by simp [hx]), List.find?_cons_of_neg _ (by simp [hx]),
        List.find?_cons_of_neg _ (by simp [hx]), ih]

theorem mem_updateFirst {x : α} (p : α → Bool) (f : α → α) (l : List α)
    (h : x ∈ updateFirst p f l) : x ∈ l ∨ ∃ a, a ∈ l ∧ x = f a := by
  induction l with
  | nil => simp [updateFirst] at h
  | cons y ys ih =>
    rw [updateFirst] at h
    by_cases hy : p y = true
    · rw [if_pos hy] at h
      rcases List.mem_cons.mp h with h | h
      · exact Or.inr ⟨y, List.mem_cons_self y ys, h⟩
      · exact Or.inl (List.mem_cons_of_mem _ h)
    · rw [if_neg hy] at h
      rcases List.mem_cons.mp h with h | h
      · exact Or.inl (h ▸ List.mem_cons_self y ys)
      · rcases ih h with h | ⟨a, ha, hx⟩
        · exact Or.inl (List.mem_cons_of_mem _ h)
        · exact Or.inr ⟨a, List.mem_cons_of_mem _ ha, hx⟩

theorem mem_updateFirst_of_not {x : α} (p : α → Bool) (f : α → α) (l : List α)
    (hx : x ∈ l) (hpx : p x = false) : x ∈ updateFirst p f l := by
  induction l with
  | nil => simp at hx
  | cons y ys ih =>
    rw [updateFirst]
    rcases List.mem_cons.mp hx with h | h
    · subst h
      rw [if_neg (by simp [hpx])]
      exact List.mem_cons_self x _
    · by_cases hy : p y = true
      · rw [if_pos hy]; exact List.mem_cons_of_mem _ h
      · rw [if_neg hy]; exact List.mem_cons_of_mem _ (ih h)

theorem updateFirst_updateFirst (p : α → Bool) (f : α → α) (l : List α)
    (hp : ∀ a, p a = true → p (f a) = true)
    (hf : ∀ a, f (f a) = f a) :
    updateFirst p f (updateFirst p f l) = updateFirst p f l := by
  induction l with
  | nil => rfl
  | cons x xs ih =>
    by_cases hx : p x = true
    · rw [updateFirst, if_pos hx, updateFirst, if_pos (hp x hx), hf]
    · rw [updateFirst, if_neg hx, updateFirst, if_neg hx, ih]

/-! ### Facts about the Balance Recalculator -/

theorem update_customer_totals_credit_entries (cid : String) (db : DB) :
    (update_customer_totals cid db).credit_entries = db.credit_entries := rfl

theorem update_customer_totals_find? (cid : String) (db : DB) :
    (update_customer_totals cid db).customers.find? (fun c => c.id == cid) =
      (db.customers.find? (fun c => c.id == cid)).map (fun c =>
        { c with
          total_credit := (((entriesOf cid db).take 1000).map (fun e => e.amount)).sum
          total_paid := (((entriesOf cid db).take 1000).map (fun e => e.paid_amount)).sum
          outstanding_balance :=
            (((entriesOf cid db).take 1000).map (fun e => e.amount)).sum -
              (((entriesOf cid db).take 1000).map (fun e => e.paid_amount)).sum }) := by
  exact find?_updateFirst _ _ _ (fun a ha => ha)

/-- C3: the Balance Recalculator is idempotent — running
`update_customer_totals` twice in a row for the same customer with no
intervening writes leaves exactly the state one run produces, so both
invocations yield identical customer totals. -/
theorem update_customer_totals_idempotent (cid : String) (db : DB) :
    update_customer_totals cid (update_customer_totals cid db) = update_customer_totals cid db := by
  show DB.mk _ _ = DB.mk _ _
  congr 1
  exact updateFirst_updateFirst _ _ _ (fun a ha => ha) (fun a => rfl)

/-- C9: listing credit entries never checks that the customer exists — the
handler is a total function on the store; for a `customer_id` that matches
no customer and no entry it returns the empty list rather than NotFound. -/
theorem get_credit_entries_absent_customer (cid : String) (db : DB)
    (_hc : db.customers.find? (fun c => c.id == cid) = none)
    (he : entriesOf cid db = []) :
    get_credit_entries cid db = [] := by
  unfold get_credit_entries
  rw [show db.credit_entries.filter (fun e => e.customer_id == cid) = [] from he]
  simp [List.mergeSort]

theorem get_credit_entries_absent_customer_witness :
    ((DB.mk [] []).customers.find? (fun c => c.id == "missing") = none ∧
      entriesOf "missing" (DB.mk [] []) = []) ∧
    get_credit_entries "missing" (DB.mk [] []) = [] :=
  ⟨⟨rfl, rfl⟩, get_credit_entries_absent_customer "missing" (DB.mk [] []) rfl rfl⟩

/-! ### C10: recalculation over an empty entry set -/

theorem totals_zero_of_entriesOf_nil (cid : String) (db : DB) (c : Customer)
    (hnone : entriesOf cid db = [])
    (hfind : (update_customer_totals cid db).customers.find? (fun x => x.id == cid) = some c) :
    c.total_credit = 0 ∧ c.total_paid = 0 ∧ c.outstanding_balance = 0 := by
  rw [update_customer_totals_find?, hnone] at hfind
  rcases Option.map_eq_some'.mp hfind with ⟨c₀, _, hc⟩
  subst hc
  refine ⟨rfl, rfl, ?_⟩
  show (0 : Rat) - 0 = 0
  norm_num

theorem filter_eraseP_eq_nil (q p : α → Bool) (l : List α) (a : α)
    (hfind : l.find? q = some a)
    (hfilter : l.filter p = [a]) :
    (l.eraseP q).filter p = [] := by
  induction l with
  | nil => cases hfind
  | cons x xs ih =>
    by_cases hq : q x = true
    · rw [List.eraseP_cons_of_pos hq]
      rw [List.find?_cons_of_pos _ hq] at hfind
      have hax : x = a := by injection hfind
      subst hax
      have hpx : p x = true := by
        have : x ∈ List.filter p (x :: xs) := by rw [hfilter]; exact List.mem_cons_self _ _
        exact (List.mem_filter.mp this).2
      rw [List.filter_cons_of_pos hpx] at hfilter
      injection hfilter
    · rw [Bool.not_eq_true] at hq
      rw [List.eraseP_cons_of_neg (by simp [hq])]
      rw [List.find?_cons_of_neg _ (by simp [hq])] at hfind
      by_cases hpx : p x = true
      · rw [List.filter_cons_of_pos hpx] at hfilter
        have hax : x = a := by injection hfilter
        have hmem : a ∈ xs := List.mem_of_find?_eq_some hfind
        have : a ∈ List.filter p xs := List.mem_filter.mpr ⟨hmem, hax ▸ hpx⟩
        rw [show List.filter p xs = [] by injection hfilter] at this
        cases this
      · rw [Bool.not_eq_true] at hpx
        rw [List.filter_cons_of_neg (by simp [hpx])] at hfilter ⊢
        exact ih hfind hfilter

/-- C10: recalculating the totals of a customer that owns no credit
entries stores zeros for `total_credit`, `total_paid` and
`outstanding_balance`; in particular, deleting a customer's last remaining
entry leaves the customer with all three totals equal to zero. -/
theorem totals_zero_empty_and_after_last_delete (cid : String) (db : DB) :
    (∀ c, entriesOf cid db = [] →
      (update_customer_totals cid db).customers.find? (fun x => x.id == cid) = some c →
      c.total_credit = 0 ∧ c.total_paid = 0 ∧ c.outstanding_balance = 0) ∧
    (∀ entry_id e₀ db' c,
      db.credit_entries.find? (fun e => e.id == entry_id) = some e₀ →
      entriesOf e₀.customer_id db = [e₀] →
      delete_credit_entry entry_id db = .ok db' →
      db'.customers.find? (fun x => x.id == e₀.customer_id) = some c →
      c.total_credit = 0 ∧ c.total_paid = 0 ∧ c.outstanding_balance = 0) := by
  constructor
  · exact fun c h1 h2 => totals_zero_of_entriesOf_nil cid db c h1 h2
  · intro entry_id e₀ db' c hfind hlast hdel hc
    unfold delete_credit_entry at hdel
    rw [hfind] at hdel
    have hdb' : db' =
        update_customer_totals e₀.customer_id
          { db with credit_entries := db.credit_entries.eraseP (fun e => e.id == entry_id) } := by
      injection hdel with h
      exact h.symm
    subst hdb'
    refine totals_zero_of_entriesOf_nil _ _ _ ?_ hc
    exact filter_eraseP_eq_nil _ _ _ _ hfind hlast

def lastEntry : CreditEntry :=
  { id := "e1", customer_id := "c1", amount := 5, description := none, date := 3,
    image_data := none, is_paid := false, paid_amount := 2, created_at := 1 }

def lastEntryCustomer : Customer :=
  { id := "c1", name := "Rajesh Kumar", phone := none, address := none, created_at := 0,
    total_credit := 5, total_paid := 2, outstanding_balance := 3 }

def otherCustomer : Customer :=
  { id := "c2", name := "Priya Sharma", phone := none, address := none, created_at := 0,
    total_credit := 7, total_paid := 1, outstanding_balance := 6 }

def lastEntryDB : DB :=
  { customers := [lastEntryCustomer, otherCustomer], credit_entries := [lastEntry] }

def recalcedC1 : Customer :=
  { lastEntryCustomer with total_credit := 0, total_paid := 0, outstanding_balance := 0 }

def recalcedC2 : Customer :=
  { otherCustomer with total_credit := 0, total_paid := 0, outstanding_balance := 0 }

def afterLastDelete : DB :=
  { customers := [recalcedC1, otherCustomer], credit_entries := [] }

theorem totals_zero_empty_and_after_last_delete_witness :
    (entriesOf "c2" lastEntryDB = [] ∧
      delete_credit_entry "e1" lastEntryDB = .ok afterLastDelete) ∧
    (recalcedC2.total_credit = 0 ∧ recalcedC2.total_paid = 0 ∧
      recalcedC2.outstanding_balance = 0) ∧
    (recalcedC1.total_credit = 0 ∧ recalcedC1.total_paid = 0 ∧
      recalcedC1.outstanding_balance = 0) :=
  ⟨⟨by decide,
      by simp [delete_credit_entry, lastEntryDB, lastEntry, lastEntryCustomer, otherCustomer,
        afterLastDelete, recalcedC1, update_customer_totals, updateFirst, List.find?]⟩,
    (totals_zero_empty_and_after_last_delete "c2" lastEntryDB).1 recalcedC2
      (by decide)
      (by simp [update_customer_totals, updateFirst, entriesOf, lastEntryDB, lastEntry,
        lastEntryCustomer, otherCustomer, recalcedC2, List.find?]),
    (totals_zero_empty_and_after_last_delete "c1" lastEntryDB).2 "e1" lastEntry
      afterLastDelete recalcedC1 (by decide) (by decide)
      (by simp [delete_credit_entry, lastEntryDB, lastEntry, lastEntryCustomer, otherCustomer,
        afterLastDelete, recalcedC1, update_customer_totals, updateFirst, List.find?])
      (by simp [afterLastDelete, recalcedC1, lastEntryCustomer, otherCustomer, lastEntry,
        List.find?])⟩

/-! ### C8: customer creation and name validation -/

/-- C8 (amended): customer creation succeeds whenever the `name` field is
present in the request body — including when it is the empty string —
returning a new customer with the supplied id as generated, the current
timestamp, and all three totals zero; it fails with a ValidationError only
when `name` is missing from the body. -/
theorem create_customer_spec (b : CustomerCreateBody) (newId : String) (now : Nat) (db : DB) :
    (b.name = none → validateCustomerCreate b = .error .validationError) ∧
    (∀ n, b.name = some n →
      ∃ cc, validateCustomerCreate b = .ok cc ∧ cc.name = n ∧
        (create_customer newId now cc db).1.id = newId ∧
        (create_customer newId now cc db).1.name = n ∧
        (create_customer newId now cc db).1.phone = b.phone ∧
        (create_customer newId now cc db).1.address = b.address ∧
        (create_customer newId now cc db).1.created_at = now ∧
        (create_customer newId now cc db).1.total_credit = 0 ∧
        (create_customer newId now cc db).1.total_paid = 0 ∧
        (create_customer newId now cc db).1.outstanding_balance = 0 ∧
        (create_customer newId now cc db).2.customers =
          db.customers ++ [(create_customer newId now cc db).1] ∧
        (create_customer newId now cc db).2.credit_entries = db.credit_entries) := by
  constructor
  · intro h
    unfold validateCustomerCreate
    rw [h]
  · intro n h
    refine ⟨{ name := n, phone := b.phone, address := b.address }, ?_, rfl, rfl, rfl, rfl,
      rfl, rfl, rfl, rfl, rfl, rfl, rfl⟩
    unfold validateCustomerCreate
    rw [h]

/-- C8 counterexample: a request body whose `name` is present but empty
passes validation and creates a customer — it is not rejected with a
ValidationError, contrary to the claim that an empty name fails. -/
theorem create_customer_empty_name_accepted :
    validateCustomerCreate { name := some "", phone := none, address := none } =
      .ok { name := "", phone := none, address := none } ∧
    (create_customer "c9" 4 { name := "", phone := none, address := none }
        (DB.mk [] [])).1.name = "" ∧
    validateCustomerCreate { name := some "", phone := none, address := none } ≠
      .error .validationError :=
  ⟨rfl, rfl, fun h => by cases h⟩

theorem create_customer_spec_witness :
    ((CustomerCreateBody.mk none (some "123") none).name = none ∧
      validateCustomerCreate (CustomerCreateBody.mk none (some "123") none) =
        .error .validationError) ∧
    ∃ cc, validateCustomerCreate (CustomerCreateBody.mk (some "Rajesh Kumar") none none) =
        .ok cc ∧ cc.name = "Rajesh Kumar" ∧
      (create_customer "c7" 9 cc (DB.mk [] [])).1.id = "c7" ∧
      (create_customer "c7" 9 cc (DB.mk [] [])).1.name = "Rajesh Kumar" ∧
      (create_customer "c7" 9 cc (DB.mk [] [])).1.phone = none ∧
      (create_customer "c7" 9 cc (DB.mk [] [])).1.address = none ∧
      (create_customer "c7" 9 cc (DB.mk [] [])).1.created_at = 9 ∧
      (create_customer "c7" 9 cc (DB.mk [] [])).1.total_credit = 0 ∧
      (create_customer "c7" 9 cc (DB.mk [] [])).1.total_paid = 0 ∧
      (create_customer "c7" 9 cc (DB.mk [] [])).1.outstanding_balance = 0 ∧
      (create_customer "c7" 9 cc (DB.mk [] [])).2.customers =
        (DB.mk [] []).customers ++ [(create_customer "c7" 9 cc (DB.mk [] [])).1] ∧
      (create_customer "c7" 9 cc (DB.mk [] [])).2.credit_entries = (DB.mk [] []).credit_entries :=
  ⟨⟨rfl, (create_customer_spec (CustomerCreateBody.mk none (some "123") none) "c0" 0
      (DB.mk [] [])).1 rfl⟩,
    (create_customer_spec (CustomerCreateBody.mk (some "Rajesh Kumar") none none) "c7" 9
      (DB.mk [] [])).2 "Rajesh Kumar" rfl⟩

/-! ### C6: credit-entry creation -/

/-- C6: creating a credit entry for a nonexistent `customer_id` fails with
NotFound and leaves the store unchanged; for an existing customer the
entry is inserted with `is_paid = false`, `paid_amount = 0`, the generated
id and `created_at`, and the owning customer's totals are recalculated
(synchronously, on the state holding the new entry) before returning. -/
theorem create_credit_entry_spec (newId : String) (now : Nat) (req : CreditEntryCreate)
    (db : DB) :
    (db.customers.find? (fun c => c.id == req.customer_id) = none →
      create_credit_entry newId now req db = .error (.notFound "Customer not found") ∧
      applyOp (.entry (.create newId now req)) db = db) ∧
    (∀ c₀, db.customers.find? (fun c => c.id == req.customer_id) = some c₀ →
      ∃ obj db', create_credit_entry newId now req db = .ok (obj, db') ∧
        obj.is_paid = false ∧ obj.paid_amount = 0 ∧ obj.id = newId ∧ obj.created_at = now ∧
        obj.customer_id = req.customer_id ∧ obj.amount = req.amount ∧
        obj.description = req.description ∧ obj.date = req.date ∧
        obj.image_data = req.image_data ∧
        db'.credit_entries = db.credit_entries ++ [obj] ∧
        db' = update_customer_totals req.customer_id
          { db with credit_entries := db.credit_entries ++ [obj] }) := by
  constructor
  · intro h
    have hcreate : create_credit_entry newId now req db =
        .error (.notFound "Customer not found") := by
      unfold create_credit_entry
      rw [h]
    refine ⟨hcreate, ?_⟩
    simp [applyOp, runOp, runEntryMutation, hcreate, Except.map]
  · intro c₀ h
    have hcreate : create_credit_entry newId now req db =
        .ok ({ id := newId, customer_id := req.customer_id, amount := req.amount,
                description := req.description, date := req.date,
                image_data := req.image_data, is_paid := false, paid_amount := 0,
                created_at := now },
              update_customer_totals req.customer_id
                { db with credit_entries := db.credit_entries ++
                    [{ id := newId, customer_id := req.customer_id, amount := req.amount,
                        description := req.description, date := req.date,
                        image_data := req.image_data, is_paid := false, paid_amount := 0,
                        created_at := now }] }) := by
      unfold create_credit_entry
      rw [h]
    exact ⟨_, _, hcreate, rfl, rfl, rfl, rfl, rfl, rfl, rfl, rfl, rfl, rfl, rfl⟩

theorem create_credit_entry_spec_witness :
    (lastEntryDB.customers.find? (fun c => c.id == "ghost") = none ∧
      create_credit_entry "e9" 8 (CreditEntryCreate.mk "ghost" 100 none 7 none) lastEntryDB =
        .error (.notFound "Customer not found") ∧
      applyOp (.entry (.create "e9" 8 (CreditEntryCreate.mk "ghost" 100 none 7 none)))
        lastEntryDB = lastEntryDB) ∧
    ∃ obj db',
      create_credit_entry "e9" 8 (CreditEntryCreate.mk "c2" 100 none 7 none) lastEntryDB =
        .ok (obj, db') ∧
      obj.is_paid = false ∧ obj.paid_amount = 0 ∧ obj.id = "e9" ∧ obj.created_at = 8 ∧
      obj.customer_id = "c2" ∧ obj.amount = 100 ∧ obj.description = none ∧ obj.date = 7 ∧
      obj.image_data = none ∧
      db'.credit_entries = lastEntryDB.credit_entries ++ [obj] ∧
      db' = update_customer_totals "c2"
        { lastEntryDB with credit_entries := lastEntryDB.credit_entries ++ [obj] } :=
  ⟨⟨by decide,
      ((create_credit_entry_spec "e9" 8 (CreditEntryCreate.mk "ghost" 100 none 7 none)
        lastEntryDB).1 (by decide)).1,
      ((create_credit_entry_spec "e9" 8 (CreditEntryCreate.mk "ghost" 100 none 7 none)
        lastEntryDB).1 (by decide)).2⟩,
    (create_credit_entry_spec "e9" 8 (CreditEntryCreate.mk "c2" 100 none 7 none)
      lastEntryDB).2 otherCustomer (by decide)⟩

/-! ### C5: customer deletion cascades -/

theorem eraseP_id_clean (cid : String) (l : List Customer)
    (hnodup : (l.map Customer.id).Nodup) :
    ∀ c ∈ l.eraseP (fun c => c.id == cid), (c.id == cid) = false := by
  induction l with
  | nil => intro c hc; simp at hc
  | cons x xs ih =>
    rw [List.map_cons, List.nodup_cons] at hnodup
    by_cases hx : (x.id == cid) = true
    · simp only [List.eraseP_cons, hx, cond_true]
      intro c hc
      by_contra hcc
      rw [Bool.not_eq_false] at hcc
      have hcid : c.id = cid := by simpa using hcc
      have hxid : x.id = cid := by simpa using hx
      exact hnodup.1 (by rw [hxid, ← hcid]; exact List.mem_map_of_mem Customer.id hc)
    · rw [Bool.not_eq_true] at hx
      simp only [List.eraseP_cons, hx, cond_false]
      intro c hc
      rcases List.mem_cons.mp hc with h | h
      · subst h; exact hx
      · exact ih hnodup.2 c h

/-- C5: for an id present among the customers (whose uuid-generated ids
are assumed pairwise distinct), deletion succeeds, removes that customer,
and removes every credit entry owned by it, so that a subsequent entry
listing for the id returns the empty sequence; for an absent id the
handler fails with NotFound. -/
theorem delete_customer_cascade (cid : String) (db : DB)
    (hnodup : (db.customers.map Customer.id).Nodup) :
    (db.customers.any (fun c => c.id == cid) = true →
      ∃ db', delete_customer cid db = .ok db' ∧
        (∀ c ∈ db'.customers, (c.id == cid) = false) ∧
        (∀ e ∈ db'.credit_entries, (e.customer_id == cid) = false) ∧
        get_credit_entries cid db' = []) ∧
    (db.customers.any (fun c => c.id == cid) = false →
      delete_customer cid db = .error (.notFound "Customer not found")) := by
  constructor
  · intro hany
    have hdel : delete_customer cid db =
        .ok { customers := db.customers.eraseP (fun c => c.id == cid),
              credit_entries := db.credit_entries.filter (fun e => !(e.customer_id == cid)) } := by
      unfold delete_customer
      rw [if_pos hany]
    refine ⟨_, hdel, ?_, ?_, ?_⟩
    · exact eraseP_id_clean cid db.customers hnodup
    · intro e he
      have := (List.mem_filter.mp he).2
      simpa using this
    · show get_credit_entries cid
        (DB.mk (db.customers.eraseP (fun c => c.id == cid))
          (db.credit_entries.filter (fun e => !(e.customer_id == cid)))) = []
      unfold get_credit_entries
      have hnil : (db.credit_entries.filter (fun e => !(e.customer_id == cid))).filter
          (fun e => e.customer_id == cid) = [] := by
        rw [List.filter_eq_nil_iff]
        intro e he
        have := (List.mem_filter.mp he).2
        simpa using this
      rw [show (DB.mk (db.customers.eraseP (fun c => c.id == cid))
          (db.credit_entries.filter (fun e => !(e.customer_id == cid)))).credit_entries =
          db.credit_entries.filter (fun e => !(e.customer_id == cid)) from rfl, hnil]
      simp [List.mergeSort]
  · intro hany
    unfold delete_customer
    rw [if_neg (by simp [hany])]

theorem delete_customer_cascade_witness :
    ((lastEntryDB.customers.map Customer.id).Nodup ∧
      lastEntryDB.customers.any (fun c => c.id == "c1") = true ∧
      lastEntryDB.customers.any (fun c => c.id == "ghost") = false) ∧
    (∃ db', delete_customer "c1" lastEntryDB = .ok db' ∧
      (∀ c ∈ db'.customers, (c.id == "c1") = false) ∧
      (∀ e ∈ db'.credit_entries, (e.customer_id == "c1") = false) ∧
      get_credit_entries "c1" db' = []) ∧
    delete_customer "ghost" lastEntryDB = .error (.notFound "Customer not found") :=
  ⟨⟨by decide, by decide, by decide⟩,
    (delete_customer_cascade "c1" lastEntryDB (by decide)).1 (by decide),
    (delete_customer_cascade "ghost" lastEntryDB (by decide)).2 (by decide)⟩

/-! ### C7: partial credit-entry update -/

/-- C7: a partial update of an existing entry overwrites exactly the
fields supplied in the request (`amount`, `description`, `date`,
`is_paid`, `paid_amount` when present), while every unsupplied field —
including `id`, `customer_id`, `image_data` and `created_at`, which the
request cannot even carry — keeps its prior value; entries with a
different id are untouched; an absent entry id fails with NotFound. -/
theorem update_credit_entry_sparse (entry_id : String) (u : CreditEntryUpdate) (db : DB) :
    (db.credit_entries.find? (fun e => e.id == entry_id) = none →
      update_credit_entry entry_id u db = .error (.notFound "Credit entry not found")) ∧
    (∀ e₀, db.credit_entries.find? (fun e => e.id == entry_id) = some e₀ →
      ∃ e₁ db', update_credit_entry entry_id u db = .ok (e₁, db') ∧
        e₁.id = e₀.id ∧
        e₁.customer_id = e₀.customer_id ∧
        e₁.image_data = e₀.image_data ∧
        e₁.created_at = e₀.created_at ∧
        e₁.amount = (match u.amount with | none => e₀.amount | some a => a) ∧
        e₁.description = (match u.description with | none => e₀.description | some d => some d) ∧
        e₁.date = (match u.date with | none => e₀.date | some d => d) ∧
        e₁.is_paid = (match u.is_paid with | none => e₀.is_paid | some b => b) ∧
        e₁.paid_amount = (match u.paid_amount with | none => e₀.paid_amount | some a => a) ∧
        (∀ x ∈ db.credit_entries, (x.id == entry_id) = false → x ∈ db'.credit_entries) ∧
        db' = update_customer_totals e₀.customer_id
          { db with credit_entries := (updateFirst (fun e => e.id == entry_id)
              (applyEntryUpdate u) db.credit_entries) }) := by
  constructor
  · intro h
    unfold update_credit_entry
    rw [h]
  · intro e₀ h
    have h2 : (updateFirst (fun e => e.id == entry_id) (applyEntryUpdate u)
        db.credit_entries).find? (fun e => e.id == entry_id) = some (applyEntryUpdate u e₀) := by
      rw [find?_updateFirst (fun e => e.id == entry_id) (applyEntryUpdate u)
        db.credit_entries (fun a ha => ha), h]
      rfl
    have hupd : update_credit_entry entry_id u db =
        .ok (applyEntryUpdate u e₀,
          update_customer_totals e₀.customer_id
            { db with credit_entries := (updateFirst (fun e => e.id == entry_id)
                (applyEntryUpdate u) db.credit_entries) }) := by
      unfold update_credit_entry
      rw [h]
      show (match (updateFirst (fun e => e.id == entry_id) (applyEntryUpdate u)
          db.credit_entries).find? (fun e => e.id == entry_id) with
        | none => Except.error (Err.notFound "Credit entry not found")
        | some updated_entry => Except.ok (updated_entry, _)) = _
      rw [h2]
    refine ⟨_, _, hupd, rfl, rfl, rfl, rfl, rfl, rfl, rfl, rfl, rfl, ?_, rfl⟩
    intro x hx hxid
    show x ∈ updateFirst (fun e => e.id == entry_id) (applyEntryUpdate u) db.credit_entries
    exact mem_updateFirst_of_not _ _ _ hx hxid

theorem update_credit_entry_sparse_witness :
    (lastEntryDB.credit_entries.find? (fun e => e.id == "e1") = some lastEntry ∧
      lastEntryDB.credit_entries.find? (fun e => e.id == "ghost") = none) ∧
    (∃ e₁ db',
      update_credit_entry "e1" (CreditEntryUpdate.mk none (some "Hardware items") none none none)
        lastEntryDB = .ok (e₁, db') ∧
      e₁.id = lastEntry.id ∧
      e₁.customer_id = lastEntry.customer_id ∧
      e₁.image_data = lastEntry.image_data ∧
      e₁.created_at = lastEntry.created_at ∧
      e₁.amount = lastEntry.amount ∧
      e₁.description = some "Hardware items" ∧
      e₁.date = lastEntry.date ∧
      e₁.is_paid = lastEntry.is_paid ∧
      e₁.paid_amount = lastEntry.paid_amount ∧
      (∀ x ∈ lastEntryDB.credit_entries, (x.id == "e1") = false → x ∈ db'.credit_entries) ∧
      db' = update_customer_totals lastEntry.customer_id
        { lastEntryDB with credit_entries := (updateFirst (fun e => e.id == "e1")
            (applyEntryUpdate (CreditEntryUpdate.mk none (some "Hardware items") none none none))
            lastEntryDB.credit_entries) }) ∧
    update_credit_entry "ghost" (CreditEntryUpdate.mk none (some "x") none none none)
      lastEntryDB = .error (.notFound "Credit entry not found") :=
  ⟨⟨by decide, by decide⟩,
    (update_credit_entry_sparse "e1"
      (CreditEntryUpdate.mk none (some "Hardware items") none none none) lastEntryDB).2
      lastEntry (by decide),
    (update_credit_entry_sparse "ghost"
      (CreditEntryUpdate.mk none (some "x") none none none) lastEntryDB).1 (by decide)⟩

/-! ### C2: the balance invariant -/

/-- The invariant of §3 of the spec: on every stored customer record,
`outstanding_balance = total_credit - total_paid`. -/
def balanceOk (db : DB) : Prop :=
  ∀ c ∈ db.customers, c.outstanding_balance = c.total_credit - c.total_paid

theorem balanceOk_update_customer_totals (cid : String) (db : DB) (h : balanceOk db) :
    balanceOk (update_customer_totals cid db) := by
  intro c hc
  rcases mem_updateFirst _ _ _ hc with hmem | ⟨a, _, rfl⟩
  · exact h c hmem
  · rfl

/-- Every successful credit-entry mutation produces the recalculated state
of an intermediate store that kept the customers collection unchanged. -/
theorem runEntryMutation_ok_shape (m : EntryMutation) (db db' : DB)
    (h : runEntryMutation m db = .ok db') :
    ∃ cid es, touchedCustomerId m db = some cid ∧
      db' = update_customer_totals cid (DB.mk db.customers es) := by
  cases m with
  | create newId now req =>
    unfold runEntryMutation create_credit_entry at h
    cases hf : db.customers.find? (fun c => c.id == req.customer_id) with
    | none => simp [hf, Except.map] at h
    | some c₀ =>
      simp only [hf, Except.map, Except.ok.injEq] at h
      exact ⟨req.customer_id, _,
        by simp [touchedCustomerId, hf], h.symm⟩
  | update entry_id u =>
    unfold runEntryMutation update_credit_entry at h
    cases hf : db.credit_entries.find? (fun e => e.id == entry_id) with
    | none => simp [hf, Except.map] at h
    | some entry =>
      have h2 : (updateFirst (fun e => e.id == entry_id) (applyEntryUpdate u)
          db.credit_entries).find? (fun e => e.id == entry_id) =
          some (applyEntryUpdate u entry) := by
        rw [find?_updateFirst (fun e => e.id == entry_id) (applyEntryUpdate u)
          db.credit_entries (fun a ha => ha), hf]
        rfl
      simp only [hf, h2, Except.map, Except.ok.injEq] at h
      exact ⟨entry.customer_id, _,
        by simp [touchedCustomerId, hf], h.symm⟩
  | payment entry_id p =>
    unfold runEntryMutation update_payment_status at h
    cases hf : db.credit_entries.find? (fun e => e.id == entry_id) with
    | none => simp [hf, Except.map] at h
    | some entry =>
      have h2 : (updateFirst (fun e => e.id == entry_id)
          (fun e => { e with is_paid := p.is_paid, paid_amount := p.paid_amount })
          db.credit_entries).find? (fun e => e.id == entry_id) =
          some { entry with is_paid := p.is_paid, paid_amount := p.paid_amount } := by
        rw [find?_updateFirst (fun e => e.id == entry_id)
          (fun e => { e with is_paid := p.is_paid, paid_amount := p.paid_amount })
          db.credit_entries (fun a ha => ha), hf]
        rfl
      simp only [hf, h2, Except.map, Except.ok.injEq] at h
      exact ⟨entry.customer_id, _,
        by simp [touchedCustomerId, hf], h.symm⟩
  | delete entry_id =>
    unfold runEntryMutation delete_credit_entry at h
    cases hf : db.credit_entries.find? (fun e => e.id == entry_id) with
    | none => simp [hf] at h
    | some entry =>
      simp only [hf, Except.ok.injEq] at h
      exact ⟨entry.customer_id, _,
        by simp [touchedCustomerId, hf], h.symm⟩

/-- C2: `outstanding_balance = total_credit - total_paid` holds on every
customer a recalculation leaves behind, and every mutating operation of
the API preserves the invariant on the store it leaves. -/
theorem balance_invariant_preserved (db : DB) (hdb : balanceOk db) :
    (∀ cid, balanceOk (update_customer_totals cid db)) ∧
    (∀ op, balanceOk (applyOp op db)) := by
  refine ⟨fun cid => balanceOk_update_customer_totals cid db hdb, fun op => ?_⟩
  unfold applyOp
  cases hrun : runOp op db with
  | error e => exact hdb
  | ok db' =>
    show balanceOk db'
    cases op with
    | createCustomer newId now c =>
      unfold runOp at hrun
      injection hrun with hrun
      subst hrun
      intro x hx
      rcases List.mem_append.mp hx with hmem | hmem
      · exact hdb x hmem
      · rw [List.mem_singleton.mp hmem]
        show (0 : Rat) = 0 - 0
        norm_num
    | updateCustomer cid u =>
      unfold runOp update_customer at hrun
      cases hf : db.customers.find? (fun c => c.id == cid) with
      | none => simp [hf, Except.map] at hrun
      | some c₀ =>
        have h2 : (updateFirst (fun c => c.id == cid)
            (fun c => { c with name := u.name, phone := u.phone, address := u.address })
            db.customers).find? (fun c => c.id == cid) =
            some { c₀ with name := u.name, phone := u.phone, address := u.address } := by
          rw [find?_updateFirst (fun c => c.id == cid)
            (fun c => { c with name := u.name, phone := u.phone, address := u.address })
            db.customers (fun a ha => ha), hf]
          rfl
        simp only [hf, h2, Except.map, Except.ok.injEq] at hrun
        subst hrun
        intro x hx
        rcases mem_updateFirst _ _ _ hx with hmem | ⟨a, ha, rfl⟩
        · exact hdb x hmem
        · exact hdb a ha
    | deleteCustomer cid =>
      unfold runOp delete_customer at hrun
      by_cases hany : db.customers.any (fun c => c.id == cid) = true
      · simp only [hany, if_true, Except.ok.injEq] at hrun
        subst hrun
        intro x hx
        exact hdb x ((List.eraseP_sublist db.customers).subset hx)
      · simp [hany] at hrun
    | entry m =>
      obtain ⟨cid, es, -, rfl⟩ := runEntryMutation_ok_shape m db db' hrun
      exact balanceOk_update_customer_totals cid (DB.mk db.customers es)
        (fun c hc => hdb c hc)

def invCustomer1 : Customer :=
  { id := "c1", name := "Rajesh Kumar", phone := none, address := none, created_at := 0,
    total_credit := 5, total_paid := 0, outstanding_balance := 5 }

def invCustomer2 : Customer :=
  { id := "c2", name := "Priya Sharma", phone := none, address := none, created_at := 0,
    total_credit := 0, total_paid := 0, outstanding_balance := 0 }

def invEntry : CreditEntry :=
  { id := "e1", customer_id := "c1", amount := 5, description := none, date := 3,
    image_data := none, is_paid := false, paid_amount := 0, created_at := 1 }

def invDB : DB := DB.mk [invCustomer1, invCustomer2] [invEntry]

theorem balance_invariant_preserved_witness :
    balanceOk invDB ∧
    balanceOk (update_customer_totals "c1" invDB) ∧
    balanceOk (applyOp (.entry (.payment "e1" (PaymentUpdate.mk true 5))) invDB) ∧
    balanceOk (applyOp (.deleteCustomer "c1") invDB) :=
  have hdb : balanceOk invDB := by
    intro c hc
    rcases List.mem_cons.mp hc with h | h
    · rw [h]; show (5 : Rat) = 5 - 0; norm_num
    · rw [List.mem_singleton.mp h]; show (0 : Rat) = 0 - 0; norm_num
  ⟨hdb,
    (balance_invariant_preserved invDB hdb).1 "c1",
    (balance_invariant_preserved invDB hdb).2 (.entry (.payment "e1" (PaymentUpdate.mk true 5))),
    (balance_invariant_preserved invDB hdb).2 (.deleteCustomer "c1")⟩

/-! ### C1: totals after a successful credit-entry mutation -/

/-- C1 (amended): after every successful credit-entry mutation touching an
entry owned by customer `cid`, the stored customer's `total_credit` and
`total_paid` equal the sums of `amount` and `paid_amount` over the
customer's stored entries — provided the customer owns at most 1000
entries, the recalculator's fetch cap — `outstanding_balance` equals their
difference, and every other field of the customer record is carried over
unchanged from before the mutation. -/
theorem entry_mutation_totals (m : EntryMutation) (db db' : DB) (cid : String) (c : Customer)
    (hrun : runEntryMutation m db = .ok db')
    (htouch : touchedCustomerId m db = some cid)
    (hcap : (entriesOf cid db').length ≤ 1000)
    (hfind : db'.customers.find? (fun x => x.id == cid) = some c) :
    c.total_credit = ((entriesOf cid db').map (fun e => e.amount)).sum ∧
    c.total_paid = ((entriesOf cid db').map (fun e => e.paid_amount)).sum ∧
    c.outstanding_balance = c.total_credit - c.total_paid ∧
    ∃ c₀, db.customers.find? (fun x => x.id == cid) = some c₀ ∧
      c.id = c₀.id ∧ c.name = c₀.name ∧ c.phone = c₀.phone ∧
      c.address = c₀.address ∧ c.created_at = c₀.created_at := by
  obtain ⟨cid', es, htouch', rfl⟩ := runEntryMutation_ok_shape m db db' hrun
  have hcc : cid' = cid := by
    rw [htouch'] at htouch
    injection htouch
  subst hcc
  rw [update_customer_totals_find?] at hfind
  rcases Option.map_eq_some'.mp hfind with ⟨c₀, hc₀, rfl⟩
  have htake : ((entriesOf cid' (DB.mk db.customers es)).take 1000) =
      entriesOf cid' (DB.mk db.customers es) :=
    List.take_of_length_le hcap
  refine ⟨?_, ?_, rfl, ⟨c₀, hc₀, rfl, rfl, rfl, rfl, rfl⟩⟩
  · show (((entriesOf cid' (DB.mk db.customers es)).take 1000).map
      (fun e => e.amount)).sum = _
    rw [htake]
    rfl
  · show (((entriesOf cid' (DB.mk db.customers es)).take 1000).map
      (fun e => e.paid_amount)).sum = _
    rw [htake]
    rfl

def paidEntry : CreditEntry := { invEntry with is_paid := true, paid_amount := 5 }

def paidCustomer1 : Customer :=
  { invCustomer1 with total_credit := 5, total_paid := 5, outstanding_balance := 0 }

def paidDB : DB := DB.mk [paidCustomer1, invCustomer2] [paidEntry]

theorem entry_mutation_totals_witness :
    (runEntryMutation (.payment "e1" (PaymentUpdate.mk true 5)) invDB = .ok paidDB ∧
      touchedCustomerId (.payment "e1" (PaymentUpdate.mk true 5)) invDB = some "c1" ∧
      (entriesOf "c1" paidDB).length ≤ 1000 ∧
      paidDB.customers.find? (fun x => x.id == "c1") = some paidCustomer1) ∧
    (paidCustomer1.total_credit = ((entriesOf "c1" paidDB).map (fun e => e.amount)).sum ∧
      paidCustomer1.total_paid = ((entriesOf "c1" paidDB).map (fun e => e.paid_amount)).sum ∧
      paidCustomer1.outstanding_balance = paidCustomer1.total_credit - paidCustomer1.total_paid ∧
      ∃ c₀, invDB.customers.find? (fun x => x.id == "c1") = some c₀ ∧
        paidCustomer1.id = c₀.id ∧ paidCustomer1.name = c₀.name ∧
        paidCustomer1.phone = c₀.phone ∧ paidCustomer1.address = c₀.address ∧
        paidCustomer1.created_at = c₀.created_at) :=
  ⟨⟨by simp [runEntryMutation, update_payment_status, invDB, invEntry, invCustomer1,
      invCustomer2, updateFirst, update_customer_totals, paidDB, paidCustomer1, paidEntry,
      List.find?, Except.map],
    by decide, by decide, by decide⟩,
    entry_mutation_totals (.payment "e1" (PaymentUpdate.mk true 5)) invDB paidDB
      "c1" paidCustomer1
      (by simp [runEntryMutation, update_payment_status, invDB, invEntry, invCustomer1,
        invCustomer2, updateFirst, update_customer_totals, paidDB, paidCustomer1, paidEntry,
        List.find?, Except.map])
      (by decide) (by decide) (by decide)⟩

set_option maxRecDepth 100000

def bigEntry (i : Nat) : CreditEntry :=
  { id := toString i, customer_id := "c", amount := 1, description := none, date := 0,
    image_data := none, is_paid := false, paid_amount := 0, created_at := 0 }

def bigEntries : List CreditEntry := (List.range 1000).map bigEntry

def bigCustomer : Customer :=
  { id := "c", name := "n", phone := none, address := none, created_at := 0,
    total_credit := 1000, total_paid := 0, outstanding_balance := 1000 }

def newBigEntry : CreditEntry :=
  { id := "e1000", customer_id := "c", amount := 1, description := none, date := 0,
    image_data := none, is_paid := false, paid_amount := 0, created_at := 0 }

def bigReq : CreditEntryCreate :=
  { customer_id := "c", amount := 1, description := none, date := 0, image_data := none }

def bigDB : DB := DB.mk [bigCustomer] bigEntries

def bigDB' : DB :=
  update_customer_totals "c" (DB.mk [bigCustomer] (bigEntries ++ [newBigEntry]))

theorem bigEntries_filter :
    (bigEntries ++ [newBigEntry]).filter (fun e => e.customer_id == "c") =
      bigEntries ++ [newBigEntry] := by
  rw [List.filter_eq_self]
  intro a ha
  rcases List.mem_append.mp ha with h | h
  · rcases List.mem_map.mp h with ⟨i, _, rfl⟩
    rfl
  · rw [List.mem_singleton.mp h]
    rfl

theorem bigEntries_take : (bigEntries ++ [newBigEntry]).take 1000 = bigEntries := by
  have hlen : bigEntries.length = 1000 := by
    rw [show bigEntries = (List.range 1000).map bigEntry from rfl, List.length_map,
      List.length_range]
  rw [show (1000 : Nat) = bigEntries.length from hlen.symm]
  exact List.take_left _ _

theorem bigEntries_sum : (bigEntries.map (fun e => e.amount)).sum = 1000 := by
  show (((List.range 1000).map bigEntry).map (fun e => e.amount)).sum = 1000
  rw [List.map_map]
  show ((List.range 1000).map (fun _ => (1 : Rat))).sum = 1000
  rw [List.map_const', List.sum_replicate, List.length_range]
  norm_num

theorem bigEntries_sum_all :
    ((bigEntries ++ [newBigEntry]).map (fun e => e.amount)).sum = 1001 := by
  rw [List.map_append, List.sum_append, bigEntries_sum]
  show (1000 : Rat) + (1 + 0) = 1001
  norm_num

/-- C1 counterexample: a successful entry creation for a customer that
already owns 1000 entries (the fetch cap) stores `total_credit = 1000`
although the sum of `amount` over all 1001 of the customer's stored
entries is 1001 — the recalculator only fetches the first 1000 entries,
so the claim fails as stated for stores above the cap. -/
theorem entry_mutation_totals_cex :
    runEntryMutation (.create "e1000" 0 bigReq) bigDB = .ok bigDB' ∧
    touchedCustomerId (.create "e1000" 0 bigReq) bigDB = some "c" ∧
    (bigDB'.customers.find? (fun x => x.id == "c")).map (fun c => c.total_credit) =
      some 1000 ∧
    ((entriesOf "c" bigDB').map (fun e => e.amount)).sum = 1001 ∧
    (1000 : Rat) ≠ 1001 := by
  refine ⟨rfl, rfl, ?_, ?_, by norm_num⟩
  · show ((update_customer_totals "c"
        (DB.mk [bigCustomer] (bigEntries ++ [newBigEntry]))).customers.find?
        (fun x => x.id == "c")).map (fun c => c.total_credit) = some 1000
    rw [update_customer_totals_find?]
    rw [show (DB.mk [bigCustomer] (bigEntries ++ [newBigEntry])).customers.find?
        (fun c => c.id == "c") = some bigCustomer from rfl]
    rw [Option.map_some', Option.map_some']
    rw [show entriesOf "c" (DB.mk [bigCustomer] (bigEntries ++ [newBigEntry])) =
        bigEntries ++ [newBigEntry] from bigEntries_filter]
    rw [bigEntries_take, bigEntries_sum]
  · rw [show entriesOf "c" bigDB' = bigEntries ++ [newBigEntry] from bigEntries_filter]
    exact bigEntries_sum_all

/-! ### C4: dashboard statistics -/

/-- C4 (amended): `GetStats` returns the exact customer and entry counts
(`count_documents` is uncapped), and returns as `total_outstanding`,
`total_credit`, `total_paid` the sums of the cached per-customer totals
over the customers fetched under the 1000-document cap — hence over all
customers whenever at most 1000 exist, as assumed here. -/
theorem get_dashboard_stats_correct (db : DB) (hcap : db.customers.length ≤ 1000) :
    (get_dashboard_stats db).total_customers = db.customers.length ∧
    (get_dashboard_stats db).total_credit_entries = db.credit_entries.length ∧
    (get_dashboard_stats db).total_outstanding =
      (db.customers.map (fun c => c.outstanding_balance)).sum ∧
    (get_dashboard_stats db).total_credit =
      (db.customers.map (fun c => c.total_credit)).sum ∧
    (get_dashboard_stats db).total_paid =
      (db.customers.map (fun c => c.total_paid)).sum := by
  have htake : db.customers.take 1000 = db.customers := List.take_of_length_le hcap
  refine ⟨rfl, rfl, ?_, ?_, ?_⟩
  · show ((db.customers.take 1000).map (fun c => c.outstanding_balance)).sum = _
    rw [htake]
  · show ((db.customers.take 1000).map (fun c => c.total_credit)).sum = _
    rw [htake]
  · show ((db.customers.take 1000).map (fun c => c.total_paid)).sum = _
    rw [htake]

theorem get_dashboard_stats_correct_witness :
    lastEntryDB.customers.length ≤ 1000 ∧
    ((get_dashboard_stats lastEntryDB).total_customers = lastEntryDB.customers.length ∧
      (get_dashboard_stats lastEntryDB).total_credit_entries =
        lastEntryDB.credit_entries.length ∧
      (get_dashboard_stats lastEntryDB).total_outstanding =
        (lastEntryDB.customers.map (fun c => c.outstanding_balance)).sum ∧
      (get_dashboard_stats lastEntryDB).total_credit =
        (lastEntryDB.customers.map (fun c => c.total_credit)).sum ∧
      (get_dashboard_stats lastEntryDB).total_paid =
        (lastEntryDB.customers.map (fun c => c.total_paid)).sum) :=
  ⟨by decide, get_dashboard_stats_correct lastEntryDB (by decide)⟩

def manyCustomer (i : Nat) : Customer :=
  { id := toString i, name := "n", phone := none, address := none, created_at := 0,
    total_credit := 1, total_paid := 0, outstanding_balance := 1 }

def manyDB : DB := DB.mk ((List.range 1001).map manyCustomer) []

/-- C4 counterexample: with 1001 customers whose cached outstanding
balances are all 1, `GetStats` reports `total_customers = 1001` (the count
is exact) but `total_outstanding = 1000`, while the sum over all
customers' cached `outstanding_balance` is 1001 — the sums only range
over the first 1000 fetched customer documents. -/
theorem get_dashboard_stats_cex :
    (get_dashboard_stats manyDB).total_customers = 1001 ∧
    (get_dashboard_stats manyDB).total_credit_entries = 0 ∧
    (get_dashboard_stats manyDB).total_outstanding = 1000 ∧
    (manyDB.customers.map (fun c => c.outstanding_balance)).sum = 1001 ∧
    (1000 : Rat) ≠ 1001 := by
  refine ⟨?_, rfl, ?_, ?_, by norm_num⟩
  · show ((List.range 1001).map manyCustomer).length = 1001
    rw [List.length_map, List.length_range]
  · show ((manyDB.customers.take 1000).map (fun c => c.outstanding_balance)).sum = 1000
    rw [show manyDB.customers = (List.range 1001).map manyCustomer from rfl,
      ← List.map_take, List.take_range, show (1000 : Nat) ⊓ 1001 = 1000 by norm_num,
      List.map_map]
    show ((List.range 1000).map (fun _ => (1 : Rat))).sum = 1000
    rw [List.map_const', List.sum_replicate, List.length_range]
    norm_num
  · show (((List.range 1001).map manyCustomer).map (fun c => c.outstanding_balance)).sum = 1001
    rw [List.map_map]
    show ((List.range 1001).map (fun _ => (1 : Rat))).sum = 1001
    rw [List.map_const', List.sum_replicate, List.length_range]
    norm_num

end CreditMgmt
